import Mathlib

/-!
Verification of the puter-python-sdk AI client (`puter/ai.py`) against its
natural-language specification.  The Python code is shallowly embedded:
JSON-like Python values become the inductive `Json`, Python exceptions become
the `PyErr` sum carried in `Except`, the network is an explicit
`Except String (Nat × Json)` argument (transport outcome: error message, or
status code with parsed body), and the filesystem / MIME-guessing used by the
image helpers are explicit function parameters.
-/

namespace Puter

/-- JSON-like Python values (the shapes `response.json()` can produce).
Objects are association lists in insertion order, mirroring Python dicts. -/
inductive Json where
  | null : Json
  | bool : Bool → Json
  | num : Int → Json
  | str : String → Json
  | arr : List Json → Json
  | obj : List (String × Json) → Json
  deriving Repr

/-- First-match association-list lookup (Python dict keys are unique, so
first-match agrees with dict lookup). -/
def lookupKey {α : Type} : List (String × α) → String → Option α
  | [], _ => none
  | (k1, v) :: rest, k => if k1 = k then some v else lookupKey rest k

/-- `data.get(k)` / `k in data and data[k]` access: `none` both when the key is
absent and when the value is not a dict (mirroring the guarded
`isinstance(x, dict) and "k" in x` checks in `extract_content`). -/
def Json.get (j : Json) (k : String) : Option Json :=
  match j with
  | .obj fields => lookupKey fields k
  | _ => none

/-- Top-level key names of a dict, in insertion order (`list(d.keys())`). -/
def Json.keys (j : Json) : List String :=
  match j with
  | .obj fields => fields.map Prod.fst
  | _ => []

/-- Python truthiness of a JSON-like value. -/
def pyTruthy : Json → Bool
  | .null => false
  | .bool b => b
  | .num n => decide (n ≠ 0)
  | .str s => decide (s ≠ "")
  | .arr xs => !xs.isEmpty
  | .obj fs => !fs.isEmpty

/-- Whitespace characters removed by Python `str.strip()` (ASCII subset). -/
def pyIsSpace (c : Char) : Bool :=
  c = ' ' || c = '\t' || c = '\n' || c = '\r' || c.toNat = 11 || c.toNat = 12

/-- Python `str.strip()`. -/
def pyStrip (s : String) : String :=
  String.mk (((s.data.dropWhile pyIsSpace).reverse.dropWhile pyIsSpace).reverse)

/-- Python exceptions reachable in the embedded code.  `valueError`,
`authError` (PuterAuthError) and `apiError` (PuterAPIError) carry their
message; the remaining runtime errors are abstract markers. -/
inductive PyErr where
  | valueError : String → PyErr
  | authError : String → PyErr
  | apiError : String → PyErr
  | attrError : PyErr
  | typeError : PyErr
  | keyError : PyErr
  deriving Repr, DecidableEq

/-- Rendering of an exception by `str(e)` (abstract for the marker errors). -/
def pyErrStr : PyErr → String
  | .valueError m => m
  | .authError m => m
  | .apiError m => m
  | .attrError => "AttributeError"
  | .typeError => "TypeError"
  | .keyError => "KeyError"

/-! ### Response normalizer: `extract_content` (ai.py lines 477-541) -/

/-- `item.get("type") == "text"` (a missing key or a non-string value
compares unequal to the string literal). -/
def isTextType (item : Json) : Bool :=
  match item.get "type" with
  | some (.str t) => t = "text"
  | _ => false

/-- The list comprehension
`[item.get("text", "") for item in content if item.get("type") == "text"]`:
a non-dict item raises `AttributeError`; otherwise items whose `type` field
equals `"text"` contribute their `text` field (default `""`). -/
def collectTextFields : List Json → Except PyErr (List Json)
  | [] => .ok []
  | item :: rest =>
    match item with
    | .obj _ =>
      match collectTextFields rest with
      | .error e => .error e
      | .ok vs =>
        if isTextType item then
          .ok ((item.get "text").getD (.str "") :: vs)
        else
          .ok vs
    | _ => .error .attrError

/-- `"".join(xs)`: raises `TypeError` on a non-string element. -/
def pyJoin : List Json → Except PyErr String
  | [] => .ok ""
  | .str s :: rest =>
    match pyJoin rest with
    | .error e => .error e
    | .ok t => .ok (s ++ t)
  | _ :: _ => .error .typeError

/-- The text produced from a `content` list in cases 1 and 2 of
`extract_content`. -/
def joinTextList (xs : List Json) : Except PyErr String :=
  match collectTextFields xs with
  | .error e => .error e
  | .ok vs => pyJoin vs

/-- The shared list/string handling of a `content` value in cases 1 and 2:
`some` on a structural match (list or string), `none` when the value has
another type (the Python code then falls through to the next case). -/
def contentFromListOrStr (content : Json) : Except PyErr (Option Json) :=
  match content with
  | .arr xs =>
    match joinTextList xs with
    | .error e => .error e
    | .ok s => .ok (some (.str s))
  | .str s => .ok (some (.str s))
  | _ => .ok none

/-- Case 2 (and the inner part of case 1): `result.content` with list/string
handling. -/
def tryContentField (result : Json) : Except PyErr (Option Json) :=
  match result.get "content" with
  | some content => contentFromListOrStr content
  | none => .ok none

/-- Case 1: `result.message.content` with list/string handling. -/
def tryMessageContent (result : Json) : Except PyErr (Option Json) :=
  match result.get "message" with
  | some message => tryContentField message
  | none => .ok none

/-- Case 4: `result.choices[0].message.content` (any type is returned). -/
def tryChoices (result : Json) : Option Json :=
  match result.get "choices" with
  | some (.arr (choice :: _)) =>
    match choice.get "message" with
    | some message => message.get "content"
    | none => none
  | _ => none

/-- Cases 6 and 7: top-level `content` (string only, with fall-through) and
top-level `text` (any type). -/
def tryTopLevel (data : Json) : Except PyErr (Option Json) :=
  match data.get "content" with
  | some (.str s) => .ok (some (.str s))
  | _ =>
    match data.get "text" with
    | some v => .ok (some v)
    | none => .ok none

/-- `extract_content` from `PuterAI.chat` (identical in `async_chat`):
the early-return cascade over cases 1-7. -/
def extract_content (data : Json) : Except PyErr (Option Json) :=
  match data.get "result" with
  | some result =>
    (match tryMessageContent result with
     | .error e => .error e
     | .ok (some v) => .ok (some v)
     | .ok none =>
       match tryContentField result with
       | .error e => .error e
       | .ok (some v) => .ok (some v)
       | .ok none =>
         match result with
         | .str s => .ok (some (.str s))
         | _ =>
           match tryChoices result with
           | some v => .ok (some v)
           | none =>
             match result.get "text" with
             | some v => .ok (some v)
             | none => tryTopLevel data)
  | none => tryTopLevel data

/-! ### Image normalization (ai.py lines 250-345) -/

/-- The base64 alphabet. -/
def b64Alphabet : List Char :=
  "ABCDEFGHIJKLMNOPQRSTUVWXYZabcdefghijklmnopqrstuvwxyz0123456789+/".data

def b64Char (n : Nat) : Char := b64Alphabet.getD n 'A'

/-- Standard base64 of a byte sequence (`base64.b64encode(...).decode("utf-8")`). -/
def b64Encode : List Nat → String
  | b1 :: b2 :: b3 :: rest =>
    String.mk [b64Char (b1 / 4), b64Char (b1 % 4 * 16 + b2 / 16),
               b64Char (b2 % 16 * 4 + b3 / 64), b64Char (b3 % 64)] ++ b64Encode rest
  | [b1, b2] =>
    String.mk [b64Char (b1 / 4), b64Char (b1 % 4 * 16 + b2 / 16),
               b64Char (b2 % 16 * 4), '=']
  | [b1] =>
    String.mk [b64Char (b1 / 4), b64Char (b1 % 4 * 16), '=', '=']
  | [] => ""

def isSchemeChar (c : Char) : Bool :=
  c.isAlphanum || c = '+' || c = '-' || c = '.'

/-- The `scheme` component of `urllib.parse.urlparse`: the lowercased part
before the first colon when it is a well-formed scheme, `""` otherwise. -/
def urlScheme (s : String) : String :=
  let pre := s.data.takeWhile (fun c => c ≠ ':')
  if pre.length < s.data.length && !pre.isEmpty &&
     (pre.headD 'a').isAlpha && pre.all isSchemeChar then
    String.mk (pre.map Char.toLower)
  else ""

/-- Python `a or b` on an optional string (`None` and `""` are falsy). -/
def pyOr (a : Option String) (b : String) : String :=
  match a with
  | some s => if s = "" then b else s
  | none => b

/-- The result of calling `.read()` on a file-like handle: bytes, or text
(which the code utf-8 encodes). -/
inductive FileRead where
  | rbytes : List Nat → FileRead
  | rtext : String → FileRead
  deriving Repr

/-- One source value of `ImageInputType` (before the optional tuple wrapper):
a string (paths, URLs, data URIs; `os.PathLike` behaves as its string form),
a byte buffer, a file-like handle (with its `read()` result and optional
`mimetype` attribute), or a pre-built payload dict. -/
inductive ImgCore where
  | strC : String → ImgCore
  | bytesC : List Nat → ImgCore
  | fileC : FileRead → Option String → ImgCore
  | dictC : Json → ImgCore
  deriving Repr

/-- An `ImageInputType` value: a bare source, a `(data, mime_type)` pair, or a
tuple of the wrong arity. -/
inductive ImgInput where
  | plain : ImgCore → ImgInput
  | pair : ImgCore → Option String → ImgInput
  | badTuple : ImgInput
  deriving Repr

/-- `PuterAI._extract_image_source`. -/
def extractImageSource : ImgInput → Except PyErr (ImgCore × Option String)
  | .plain c => .ok (c, none)
  | .pair c m => .ok (c, m)
  | .badTuple => .error (.valueError "Tuple image inputs must be (image_data, mime_type).")

/-- The `\x7b"type": "image_url", "image_url": \x7b"url": url\x7d\x7d` payload. -/
def imageUrlPayload (url : String) : Json :=
  .obj [("type", .str "image_url"), ("image_url", .obj [("url", .str url)])]

/-- Bytes as seen by `PuterAI._create_base64_image_url`: `None`, a bytes-like
value, or a value of another type (the two defensive checks in the code). -/
inductive PyData where
  | noneD : PyData
  | bytesD : List Nat → PyData
  | otherD : PyData
  deriving Repr

/-- `PuterAI._create_base64_image_url` (ai.py lines 329-345). -/
def createBase64ImageUrl (data : PyData) (mimeType : String) (defaultMime : String) :
    Except PyErr Json :=
  match data with
  | .noneD => .error (.valueError "Image data could not be read.")
  | .otherD => .error (.valueError "Image data must be bytes-like.")
  | .bytesD b =>
    let encoded := b64Encode b
    let mime := pyOr (some mimeType) defaultMime
    .ok (imageUrlPayload ("data:" ++ mime ++ ";base64," ++ encoded))

/-- `PuterAI._handle_file_path`; `fs` is the filesystem (file contents by
path, `none` when the file does not exist) and `mimeGuess` models
`mimetypes.guess_type(path)[0]`. -/
def handleFilePath (fs : String → Option (List Nat)) (mimeGuess : String → Option String)
    (pathStr : String) (explicitMime : Option String) (defaultMime : String) :
    Except PyErr Json :=
  match fs pathStr with
  | none => .error (.valueError ("Image file not found: " ++ pathStr))
  | some data =>
    let mimeType := pyOr explicitMime (pyOr (mimeGuess pathStr) defaultMime)
    createBase64ImageUrl (.bytesD data) mimeType defaultMime

/-- `PuterAI._handle_path_like_image` (ai.py lines 276-289). -/
def handlePathLikeImage (fs : String → Option (List Nat)) (mimeGuess : String → Option String)
    (source : String) (explicitMime : Option String) (defaultMime : String) :
    Except PyErr Json :=
  if source.startsWith "data:" then .ok (imageUrlPayload source)
  else if urlScheme source = "http" || urlScheme source = "https" then
    .ok (imageUrlPayload source)
  else handleFilePath fs mimeGuess source explicitMime defaultMime

/-- UTF-8 encoding of a text `read()` result (`raw.encode("utf-8")`). -/
def utf8Bytes (s : String) : List Nat :=
  (s.toUTF8.toList).map UInt8.toNat

/-- `PuterAI._extract_image_data` (ai.py lines 303-327): bytes pass through
with `explicit_mime or default_mime`; file-like handles are read (text reads
utf-8 encoded) with the mime chain `explicit_mime or source.mimetype or
default_mime`; anything else raises the unsupported-input `ValueError`. -/
def extractImageData (source : ImgCore) (explicitMime : Option String)
    (defaultMime : String) : Except PyErr (List Nat × String) :=
  match source with
  | .bytesC b => .ok (b, pyOr explicitMime defaultMime)
  | .fileC raw mimeAttr =>
    let data := match raw with
      | .rbytes b => b
      | .rtext t => utf8Bytes t
    .ok (data, pyOr explicitMime (pyOr mimeAttr defaultMime))
  | _ => .error (.valueError
      "Unsupported image input type. Provide a path, bytes, file-like object, data URL, HTTP(S) URL, or a pre-built image payload.")

/-- `PuterAI._prepare_image_content` (ai.py lines 250-266); the deep copy of a
pre-built dict is the identity under value semantics. -/
def prepareImageContent (fs : String → Option (List Nat)) (mimeGuess : String → Option String)
    (image : ImgInput) (defaultMime : String) : Except PyErr Json :=
  match extractImageSource image with
  | .error e => .error e
  | .ok (source, explicitMime) =>
    match source with
    | .dictC d => .ok d
    | .strC s => handlePathLikeImage fs mimeGuess s explicitMime defaultMime
    | _ =>
      match extractImageData source explicitMime defaultMime with
      | .error e => .error e
      | .ok (data, mimeType) => createBase64ImageUrl (.bytesD data) mimeType defaultMime

/-! ### Message construction (ai.py lines 347-405) -/

/-- A transcript entry. -/
structure Message where
  role : String
  content : Json
  deriving Repr

/-- The image loop of `PuterAI._build_content_parts`: prepare each image in
order, propagating the first error. -/
def prepareImages (fs : String → Option (List Nat)) (mimeGuess : String → Option String) :
    List ImgInput → Except PyErr (List Json)
  | [] => .ok []
  | i :: is =>
    match prepareImageContent fs mimeGuess i "image/png" with
    | .error e => .error e
    | .ok p =>
      match prepareImages fs mimeGuess is with
      | .error e => .error e
      | .ok ps => .ok (p :: ps)

/-- `PuterAI._build_content_parts`: a text part from a truthy prompt, then one
image part per image; error when no part results.  An absent images argument
behaves as the empty list. -/
def buildContentParts (fs : String → Option (List Nat)) (mimeGuess : String → Option String)
    (prompt : Option String) (images : List ImgInput) : Except PyErr (List Json) :=
  let textParts : List Json :=
    match prompt with
    | some p => if p = "" then [] else [Json.obj [("type", .str "text"), ("text", .str p)]]
    | none => []
  match prepareImages fs mimeGuess images with
  | .error e => .error e
  | .ok imgParts =>
    let parts := textParts ++ imgParts
    if parts.isEmpty then
      .error (.valueError
        "Provide at least a prompt, content_parts, or images when sending a message.")
    else .ok parts

/-- `PuterAI._optimize_content_parts`: collapse a single text part to its bare
string (`parts[0]["text"]` raises `KeyError` when the key is missing). -/
def optimizeContentParts (parts : List Json) : Except PyErr Json :=
  match parts with
  | [p] =>
    if isTextType p then
      match p.get "text" with
      | some t => .ok t
      | none => .error .keyError
    else .ok (.arr parts)
  | _ => .ok (.arr parts)

/-- `PuterAI._build_user_content`: explicit content parts are deep-copied and
returned verbatim (empty sequence is an error); otherwise build from prompt
and images and optimize. -/
def buildUserContent (fs : String → Option (List Nat)) (mimeGuess : String → Option String)
    (prompt : Option String) (images : List ImgInput)
    (contentParts : Option (List Json)) : Except PyErr Json :=
  match contentParts with
  | some cps =>
    if cps.isEmpty then .error (.valueError "content_parts cannot be empty.")
    else .ok (.arr cps)
  | none =>
    match buildContentParts fs mimeGuess prompt images with
    | .error e => .error e
    | .ok parts => optimizeContentParts parts

/-- `PuterAI._build_user_message`. -/
def buildUserMessage (fs : String → Option (List Nat)) (mimeGuess : String → Option String)
    (prompt : Option String) (images : List ImgInput)
    (contentParts : Option (List Json)) : Except PyErr Message :=
  match buildUserContent fs mimeGuess prompt images contentParts with
  | .error e => .error e
  | .ok content => .ok ⟨"user", content⟩

/-! ### The debug diagnostic built on a content-extraction miss
(ai.py lines 550-567 and 703-717).  `str(response_data)` is modelled by
`pyRepr` (CPython `repr` of values parsed from JSON), and
`json.dumps(debug_info, indent=2)` by the `debugDump` assembly below. -/

def hexDigit (n : Nat) : Char := "0123456789abcdef".data.getD n '0'

def hex4 (n : Nat) : String :=
  String.mk [hexDigit (n / 4096 % 16), hexDigit (n / 256 % 16),
             hexDigit (n / 16 % 16), hexDigit (n % 16)]

/-- One character under `json.dumps` default (ensure_ascii) escaping. -/
def jsonEscapeChar (c : Char) : String :=
  if c = '"' then "\\\""
  else if c = '\\' then "\\\\"
  else if c = '\n' then "\\n"
  else if c = '\t' then "\\t"
  else if c = '\r' then "\\r"
  else if c.toNat = 8 then "\\b"
  else if c.toNat = 12 then "\\f"
  else if c.toNat < 32 || c.toNat > 126 then
    if c.toNat < 65536 then "\\u" ++ hex4 c.toNat
    else
      "\\u" ++ hex4 (55296 + (c.toNat - 65536) / 1024) ++
      "\\u" ++ hex4 (56320 + (c.toNat - 65536) % 1024)
  else String.singleton c

/-- A JSON string literal as `json.dumps` renders it. -/
def jsonQuote (s : String) : String :=
  "\"" ++ String.join (s.data.map jsonEscapeChar) ++ "\""

/-- Join with a separator (the rendering `json.dumps` and `repr` use between
elements). -/
def joinSep (sep : String) : List String → String
  | [] => ""
  | [x] => x
  | x :: xs => x ++ sep ++ joinSep sep xs

/-- One character of a CPython string `repr` with quote character `q`. -/
def pyReprChar (q : Char) (c : Char) : String :=
  if c = '\\' then "\\\\"
  else if c = q then "\\" ++ String.singleton q
  else if c = '\n' then "\\n"
  else if c = '\r' then "\\r"
  else if c = '\t' then "\\t"
  else if c.toNat < 32 || c.toNat = 127 then
    "\\x" ++ String.mk [hexDigit (c.toNat / 16), hexDigit (c.toNat % 16)]
  else String.singleton c

/-- CPython `repr` of a string: single quotes, double quotes when the string
contains a single quote but no double quote. -/
def pyStrRepr (s : String) : String :=
  let q : Char := if s.data.contains (Char.ofNat 39) && !s.data.contains '"' then '"'
                  else Char.ofNat 39
  String.singleton q ++ String.join (s.data.map (pyReprChar q)) ++ String.singleton q

mutual
/-- CPython `str`/`repr` of a value parsed from JSON. -/
def pyRepr : Json → String
  | .null => "None"
  | .bool true => "True"
  | .bool false => "False"
  | .num n => toString n
  | .str s => pyStrRepr s
  | .arr xs => "[" ++ joinSep ", " (pyReprList xs) ++ "]"
  | .obj fs => "\x7b" ++ joinSep ", " (pyReprFields fs) ++ "\x7d"

def pyReprList : List Json → List String
  | [] => []
  | x :: xs => pyRepr x :: pyReprList xs

def pyReprFields : List (String × Json) → List String
  | [] => []
  | (k, v) :: fs => (pyStrRepr k ++ ": " ++ pyRepr v) :: pyReprFields fs
end

/-- Python slicing `s[:n]` (by code points). -/
def pyTruncate (s : String) (n : Nat) : String := String.mk (s.data.take n)

/-- The `response_preview` value: `str(response_data)[:200] + "..."` when the
repr exceeds 200 characters, the full repr otherwise. -/
def previewOf (data : Json) : String :=
  if (pyRepr data).length > 200 then pyTruncate (pyRepr data) 200 ++ "..." else pyRepr data

/-- `json.dumps(ks, indent=2)` of the key list nested at depth 1. -/
def dumpKeysIndented : List String → String
  | [] => "[]"
  | ks => "[\n    " ++ (joinSep ",\n    " (ks.map jsonQuote) ++ "\n  ]")

/-- The `response_keys` entry: the key list for a dict response, the string
`"Not a dict"` otherwise. -/
def responseKeysDump (data : Json) : String :=
  match data with
  | .obj fs => dumpKeysIndented (fs.map Prod.fst)
  | _ => jsonQuote "Not a dict"

/-- `json.dumps(debug_info, indent=2)`: the sync path includes the
`"status"` entry, the async path does not. -/
def debugDump (statusOpt : Option Nat) (data : Json) : String :=
  let statusPart :=
    match statusOpt with
    | some st => "  \"status\": " ++ (toString st ++ ",\n")
    | none => ""
  "\x7b\n" ++ (statusPart ++ ("  \"response_keys\": " ++ (responseKeysDump data ++
    (",\n  \"response_preview\": " ++ (jsonQuote (previewOf data) ++ "\n\x7d")))))

/-- The string a chat call returns on a content-extraction miss. -/
def diagnosticString (statusOpt : Option Nat) (data : Json) : String :=
  "No content in AI response. Debug: " ++ debugDump statusOpt data

/-! ### Conversation session and the chat operations
(ai.py lines 55-75, 407-569, 571-719, 721-746) -/

/-- The session state of a `PuterAI` instance: the fields a chat cycle can
read or write.  `available_models` is the model registry loaded at
construction. -/
structure Session where
  token : Option String
  current_model : String
  chat_history : List Message
  available_models : List (String × String)
  deriving Repr

/-- `PuterAI._get_driver_for_model`. -/
def getDriverForModel (s : Session) (modelName : String) : String :=
  (lookupKey s.available_models modelName).getD "openai-completion"

/-- `PuterAI.set_model` (ai.py lines 725-737). -/
def set_model (s : Session) (modelName : String) : Session × Bool :=
  if (lookupKey s.available_models modelName).isSome then
    ({ s with current_model := modelName }, true)
  else (s, false)

/-- `PuterAI.clear_chat_history`. -/
def clear_chat_history (s : Session) : Session :=
  { s with chat_history := [] }

/-- The outcome of one chat call: the session afterwards, the returned string
or raised exception, and the request that was dispatched (`none` when the
call failed before reaching `_retry_request`; otherwise the messages draft,
effective model, and driver sent). -/
structure ChatResult where
  session : Session
  result : Except PyErr String
  request : Option (List Message × String × String)
  deriving Repr

/-- The body shared by `PuterAI.chat` and `PuterAI.async_chat`.  `net` is the
transport outcome of `_retry_request` plus `response.json()`: an exception
message, or the HTTP status with the parsed body.  The sync path
(`syncMode = true`) reports the status in the debug diagnostic and prefixes
errors with `"AI chat error: "`; the async path omits the status and uses
`"Async AI chat error: "`. -/
def chatGeneric (syncMode : Bool) (fs : String → Option (List Nat))
    (mimeGuess : String → Option String) (s : Session)
    (prompt : Option String) (model : Option String)
    (images : List ImgInput) (contentParts : Option (List Json))
    (net : Except String (Nat × Json)) : ChatResult :=
  let effModel := match model with
    | none => s.current_model
    | some m => m
  match buildUserMessage fs mimeGuess prompt images contentParts with
  | .error e => ⟨s, .error e, none⟩
  | .ok userMessage =>
    let messages := s.chat_history ++ [userMessage]
    let driver := getDriverForModel s effModel
    match s.token with
    | none => ⟨s, .error (.authError "Not authenticated. Please login first."), none⟩
    | some _ =>
      let ePre := if syncMode then "AI chat error: " else "Async AI chat error: "
      let req := some (messages, effModel, driver)
      match net with
      | .error msg => ⟨s, .error (.apiError (ePre ++ msg)), req⟩
      | .ok (status, data) =>
        let st : Option Nat := if syncMode then some status else none
        match extract_content data with
        | .error e => ⟨s, .error (.apiError (ePre ++ pyErrStr e)), req⟩
        | .ok (some (.str c)) =>
          if c ≠ "" ∧ pyStrip c ≠ "" then
            ⟨{ s with chat_history :=
                 s.chat_history ++ [userMessage, ⟨"assistant", .str c⟩] },
             .ok c, req⟩
          else ⟨s, .ok (diagnosticString st data), req⟩
        | .ok (some j) =>
          if pyTruthy j then ⟨s, .error (.apiError (ePre ++ pyErrStr .attrError)), req⟩
          else ⟨s, .ok (diagnosticString st data), req⟩
        | .ok none => ⟨s, .ok (diagnosticString st data), req⟩

/-- `PuterAI.chat` (ai.py lines 407-569). -/
def chat (fs : String → Option (List Nat)) (mimeGuess : String → Option String)
    (s : Session) (prompt : Option String) (model : Option String)
    (images : List ImgInput) (contentParts : Option (List Json))
    (net : Except String (Nat × Json)) : ChatResult :=
  chatGeneric true fs mimeGuess s prompt model images contentParts net

/-- `PuterAI.async_chat` (ai.py lines 571-719). -/
def async_chat (fs : String → Option (List Nat)) (mimeGuess : String → Option String)
    (s : Session) (prompt : Option String) (model : Option String)
    (images : List ImgInput) (contentParts : Option (List Json))
    (net : Except String (Nat × Json)) : ChatResult :=
  chatGeneric false fs mimeGuess s prompt model images contentParts net

/-! ### Retry with exponential backoff (`PuterAI._retry_request`,
ai.py lines 77-112; `_async_retry_request` has the same arithmetic).
A single attempt is `f attempt : Except String α` (exception message or
response); float delay arithmetic is modelled exactly over `ℚ`. -/

/-- The observable behaviour of one `_retry_request` run: the returned value
or the `PuterAPIError` message finally raised, how many times the request
function was invoked, and the sleeps performed in order. -/
structure RetryOutcome (α : Type) where
  result : Except String α
  invocations : Nat
  sleeps : List ℚ
  deriving Repr

/-- The loop `for attempt in range(max_retries + 1)` from attempt number
`attempt` with `remaining` further attempts allowed; `total` is the
`config.max_retries + 1` reported in the final error message. -/
def retryAux {α : Type} (f : Nat → Except String α) (d b : ℚ) (total : Nat) :
    Nat → Nat → RetryOutcome α
  | attempt, remaining =>
    match f attempt with
    | .ok a => ⟨.ok a, 1, []⟩
    | .error e =>
      match remaining with
      | 0 => ⟨.error ("Request failed after " ++ (toString total ++ (" attempts: " ++ e))),
              1, []⟩
      | r + 1 =>
        let rest := retryAux f d b total (attempt + 1) r
        ⟨rest.result, rest.invocations + 1, d * b ^ attempt :: rest.sleeps⟩

/-- `PuterAI._retry_request` with `config.max_retries = maxRetries`,
`config.retry_delay = d`, `config.backoff_factor = b`. -/
def retry_request {α : Type} (f : Nat → Except String α) (maxRetries : Nat)
    (d b : ℚ) : RetryOutcome α :=
  retryAux f d b (maxRetries + 1) 0 maxRetries

/-! ### Configuration (spec §4.1, §3) -/

/-- Modelled from the spec: the repository imports `config` from
`puter/config.py`, which is not under `src/`.  Fields follow spec §4.1
(seconds and multipliers as exact rationals); `headers` is omitted as no
claim consults it. -/
structure PuterConfig where
  api_base : String
  login_url : String
  timeout : ℚ
  max_retries : Nat
  retry_delay : ℚ
  backoff_factor : ℚ
  rate_limit_requests : Nat
  rate_limit_period : ℚ
  deriving Repr, DecidableEq

/-- The keyword overrides a caller may pass (`**config_overrides`): one
optional value per recognized field. -/
structure ConfigOverrides where
  api_base : Option String
  login_url : Option String
  timeout : Option ℚ
  max_retries : Option Nat
  retry_delay : Option ℚ
  backoff_factor : Option ℚ
  rate_limit_requests : Option Nat
  rate_limit_period : Option ℚ
  deriving Repr, DecidableEq

/-- The empty keyword dictionary. -/
def ConfigOverrides.noOverrides : ConfigOverrides :=
  ⟨none, none, none, none, none, none, none, none⟩

/-- `if config_overrides:` — truthiness of the kwargs dict. -/
def ConfigOverrides.isEmpty (o : ConfigOverrides) : Bool :=
  o.api_base.isNone && o.login_url.isNone && o.timeout.isNone &&
  o.max_retries.isNone && o.retry_delay.isNone && o.backoff_factor.isNone &&
  o.rate_limit_requests.isNone && o.rate_limit_period.isNone

/-- Modelled from the spec: `config.update(**overrides)` "mutates only the
supplied fields and leaves the rest untouched" (spec §4.1). -/
def PuterConfig.update (c : PuterConfig) (o : ConfigOverrides) : PuterConfig :=
  ⟨o.api_base.getD c.api_base, o.login_url.getD c.login_url,
   o.timeout.getD c.timeout, o.max_retries.getD c.max_retries,
   o.retry_delay.getD c.retry_delay, o.backoff_factor.getD c.backoff_factor,
   o.rate_limit_requests.getD c.rate_limit_requests,
   o.rate_limit_period.getD c.rate_limit_period⟩

/-- The effect of `PuterAI.__init__` (ai.py lines 61-63) on the process-wide
`config` object: `if config_overrides: config.update(**config_overrides)`. -/
def initGlobalConfig (c : PuterConfig) (o : ConfigOverrides) : PuterConfig :=
  if o.isEmpty then c else c.update o

/-! ### Sequences of chat calls (for the transcript invariant) -/

/-- One chat call in a sequence: which twin is used, its prompt and optional
model argument, and the transport outcome (status and parsed body). -/
structure ChatCall where
  isAsync : Bool
  prompt : String
  modelArg : Option String
  status : Nat
  response : Json
  deriving Repr

/-- Dispatch one call to `chat` or `async_chat`. -/
def runCall (fs : String → Option (List Nat)) (mimeGuess : String → Option String)
    (s : Session) (c : ChatCall) : ChatResult :=
  if c.isAsync then
    async_chat fs mimeGuess s (some c.prompt) c.modelArg [] none (.ok (c.status, c.response))
  else
    chat fs mimeGuess s (some c.prompt) c.modelArg [] none (.ok (c.status, c.response))

/-- Run a sequence of chat calls, threading the session. -/
def runCalls (fs : String → Option (List Nat)) (mimeGuess : String → Option String)
    (s : Session) : List ChatCall → Session
  | [] => s
  | c :: cs => runCalls fs mimeGuess (runCall fs mimeGuess s c).session cs

/-- The text `extract_content` produced, when it is a string. -/
def extractedText (data : Json) : String :=
  match extract_content data with
  | .ok (some (.str t)) => t
  | _ => ""

/-- A call whose prompt is non-empty and whose response body yields a
non-empty (after stripping) extracted text — the calls the transcript
invariant quantifies over. -/
def goodCall (c : ChatCall) : Bool :=
  decide (c.prompt ≠ "") &&
  (match extract_content c.response with
   | .ok (some (.str t)) => decide (t ≠ "") && decide (pyStrip t ≠ "")
   | _ => false)

/-- The user/assistant message pairs a sequence of successful calls appends. -/
def pairBlocks : List ChatCall → List Message
  | [] => []
  | c :: cs =>
    ⟨"user", .str c.prompt⟩ :: ⟨"assistant", .str (extractedText c.response)⟩ :: pairBlocks cs

/-! ### The response normalizer restated two ways (for the precedence claim) -/

/-- The spec reading of one list element: elements whose `type` is `"text"`
contribute their `text` field. -/
def specTextItem (item : Json) : Option String :=
  if isTextType item then
    some (match item.get "text" with
          | some (.str s) => s
          | _ => "")
  else none

/-- The spec reading of the shared list/string content handling. -/
def specListOrStr : Json → Option String
  | .arr xs => some (String.join (xs.filterMap specTextItem))
  | .str s => some s
  | _ => none

/-- The seven extraction patterns of the spec, in its fixed order, each
producing the text it matches. -/
def specPatterns (data : Json) : List (Option String) :=
  [ (data.get "result").bind fun r => ((r.get "message").bind fun m =>
      (m.get "content").bind specListOrStr)
  , (data.get "result").bind fun r => (r.get "content").bind specListOrStr
  , (data.get "result").bind fun r =>
      match r with
      | .str s => some s
      | _ => none
  , (data.get "result").bind fun r =>
      match r.get "choices" with
      | some (.arr (choice :: _)) =>
        (choice.get "message").bind fun m =>
          match m.get "content" with
          | some (.str s) => some s
          | _ => none
      | _ => none
  , (data.get "result").bind fun r =>
      match r.get "text" with
      | some (.str s) => some s
      | _ => none
  , match data.get "content" with
    | some (.str s) => some s
    | _ => none
  , match data.get "text" with
    | some (.str s) => some s
    | _ => none ]

/-- First non-empty text among the pattern results (the claim skips a
pattern whose text is empty). -/
def firstNonEmpty : List (Option String) → Option String
  | [] => none
  | some s :: rest => if s = "" then firstNonEmpty rest else some s
  | none :: rest => firstNonEmpty rest

/-- The contract as the claim words it: the first non-empty text obtained by trying the
seven patterns in the fixed order. -/
def extractFirstNonEmpty (data : Json) : Option String :=
  firstNonEmpty (specPatterns data)

/-- The seven patterns exactly as the code matches them (structural match,
text kept even when empty; a raised exception inside a pattern is
propagated). -/
def codePatterns (data : Json) : List (Except PyErr (Option Json)) :=
  [ match data.get "result" with
    | some r => tryMessageContent r
    | none => .ok none
  , match data.get "result" with
    | some r => tryContentField r
    | none => .ok none
  , match data.get "result" with
    | some (.str s) => .ok (some (.str s))
    | _ => .ok none
  , match data.get "result" with
    | some r => .ok (tryChoices r)
    | none => .ok none
  , match data.get "result" with
    | some r => .ok (r.get "text")
    | none => .ok none
  , match data.get "content" with
    | some (.str s) => .ok (some (.str s))
    | _ => .ok none
  , .ok (data.get "text") ]

/-- Run ordered patterns, returning the first structural match (or the first
raised exception). -/
def firstStructMatch : List (Except PyErr (Option Json)) → Except PyErr (Option Json)
  | [] => .ok none
  | p :: ps =>
    match p with
    | .error e => .error e
    | .ok (some v) => .ok (some v)
    | .ok none => firstStructMatch ps

/-- A body on which "first structural match" and "first non-empty text"
disagree: pattern 1 matches with the empty string while the top-level `text`
field holds `"hi"`. -/
def ceBody : Json :=
  .obj [("result", .obj [("message", .obj [("content", .str "")])]),
        ("text", .str "hi")]

/-! ### Concrete values used by counterexamples and witnesses -/

/-- The spec §4.1 defaults for the global configuration. -/
def cfgDefaults : PuterConfig :=
  ⟨"https://api.puter.com", "https://puter.com/login", 30, 3, 1, 2, 10, 60⟩

/-- The keyword overrides `max_retries=7`. -/
def ovRetries7 : ConfigOverrides :=
  ⟨none, none, none, some 7, none, none, none, none⟩

/-- An empty filesystem (no image file exists). -/
def fsEmpty : String → Option (List Nat) := fun _ => none

/-- A MIME guesser that never recognizes an extension. -/
def mgNone : String → Option String := fun _ => none

/-- An authenticated session with an empty transcript. -/
def sessAuth : Session :=
  ⟨some "tk", "claude-opus-4", [], [("gpt-4", "openai-completion"), ("claude-3", "claude")]⟩

/-- The same session without a token. -/
def sessAnon : Session :=
  ⟨none, "claude-opus-4", [], [("gpt-4", "openai-completion"), ("claude-3", "claude")]⟩

/-- A response body in the primary shape. -/
def bodyHello : Json :=
  .obj [("result", .obj [("message", .obj [("content", .str "hello")])])]

/-- A response body in the OpenAI shape. -/
def bodyChoice : Json :=
  .obj [("result", .obj [("choices",
    .arr [.obj [("message", .obj [("content", .str "sure")])]])])]

/-- A response body no pattern matches. -/
def bodyMiss : Json := .obj [("success", .bool true), ("meta", .null)]

/-! ### Substring occurrence -/

/-- `t` occurs contiguously inside `s`. -/
def strContains (s t : String) : Prop := ∃ a b : String, s = a ++ (t ++ b)

/-! ## Helper lemmas -/

theorem strContains_self (t : String) : strContains t t :=
  ⟨"", "", by rw [String.append_empty, String.empty_append]⟩

theorem strContains_head (t b : String) : strContains (t ++ b) t :=
  ⟨"", b, by rw [String.empty_append]⟩

theorem strContains_append_left (u : String) {s t : String} (h : strContains s t) :
    strContains (u ++ s) t := by
  obtain ⟨a, b, rfl⟩ := h
  exact ⟨u ++ a, b, by rw [String.append_assoc]⟩

theorem strContains_append_right (u : String) {s t : String} (h : strContains s t) :
    strContains (s ++ u) t := by
  obtain ⟨a, b, rfl⟩ := h
  exact ⟨a, b ++ u, by rw [String.append_assoc, String.append_assoc]⟩

theorem strContains_joinSep (sep : String) :
    ∀ (l : List String) (x : String), x ∈ l → strContains (joinSep sep l) x
  | [], x, hx => absurd hx (List.not_mem_nil x)
  | [y], x, hx => by
    rcases List.mem_singleton.mp hx with rfl
    exact strContains_self x
  | y :: z :: zs, x, hx => by
    rcases List.mem_cons.mp hx with rfl | hmem
    · show strContains (x ++ sep ++ joinSep sep (z :: zs)) x
      exact strContains_append_right _ (strContains_append_right _ (strContains_self x))
    · show strContains (y ++ sep ++ joinSep sep (z :: zs)) x
      rw [String.append_assoc]
      exact strContains_append_left _ (strContains_append_left _
        (strContains_joinSep sep (z :: zs) x hmem))

theorem debugDump_contains_preview (stOpt : Option Nat) (data : Json) :
    strContains (debugDump stOpt data) (jsonQuote (previewOf data)) := by
  unfold debugDump
  apply strContains_append_left
  apply strContains_append_left
  apply strContains_append_left
  apply strContains_append_left
  apply strContains_append_left
  exact strContains_head _ _

theorem dumpKeysIndented_contains {ks : List String} {k : String} (hk : k ∈ ks) :
    strContains (dumpKeysIndented ks) (jsonQuote k) := by
  cases ks with
  | nil => cases hk
  | cons a l =>
    show strContains ("[\n    " ++ (joinSep ",\n    " ((a :: l).map jsonQuote) ++ "\n  ]"))
      (jsonQuote k)
    apply strContains_append_left
    apply strContains_append_right
    exact strContains_joinSep _ _ _ (List.mem_map_of_mem jsonQuote hk)

theorem debugDump_contains_key (stOpt : Option Nat) (fields : List (String × Json))
    {k : String} (hk : k ∈ fields.map Prod.fst) :
    strContains (debugDump stOpt (.obj fields)) (jsonQuote k) := by
  unfold debugDump responseKeysDump
  apply strContains_append_left
  apply strContains_append_left
  apply strContains_append_left
  apply strContains_append_right
  exact dumpKeysIndented_contains hk

theorem diagnosticString_contains_preview (stOpt : Option Nat) (data : Json) :
    strContains (diagnosticString stOpt data) (jsonQuote (previewOf data)) :=
  strContains_append_left _ (debugDump_contains_preview stOpt data)

theorem diagnosticString_contains_key (stOpt : Option Nat) (fields : List (String × Json))
    {k : String} (hk : k ∈ fields.map Prod.fst) :
    strContains (diagnosticString stOpt (.obj fields)) (jsonQuote k) :=
  strContains_append_left _ (debugDump_contains_key stOpt fields hk)

theorem previewOf_length_le (data : Json) : (previewOf data).length ≤ 203 := by
  unfold previewOf
  split
  · have h1 : (pyTruncate (pyRepr data) 200).length ≤ 200 := by
      simp only [pyTruncate, String.length]
      exact (List.length_take_le 200 (pyRepr data).data)
    calc (pyTruncate (pyRepr data) 200 ++ "...").length
        = (pyTruncate (pyRepr data) 200).length + 3 := by
          rw [String.length_append]; rfl
      _ ≤ 203 := by omega
  · omega

theorem chatGeneric_frame (sm : Bool) (fs : String → Option (List Nat))
    (mg : String → Option String) (s : Session) (p : Option String)
    (m : Option String) (i : List ImgInput) (cp : Option (List Json))
    (net : Except String (Nat × Json)) :
    (chatGeneric sm fs mg s p m i cp net).session.token = s.token ∧
    (chatGeneric sm fs mg s p m i cp net).session.current_model = s.current_model ∧
    (chatGeneric sm fs mg s p m i cp net).session.available_models = s.available_models ∧
    (chatGeneric sm fs mg s p m i cp net).session =
      { s with chat_history := (chatGeneric sm fs mg s p m i cp net).session.chat_history } := by
  obtain ⟨tok, cm, hist, am⟩ := s
  unfold chatGeneric
  cases hb : buildUserMessage fs mg p i cp with
  | error e => exact ⟨rfl, rfl, rfl, rfl⟩
  | ok um =>
    cases tok with
    | none => exact ⟨rfl, rfl, rfl, rfl⟩
    | some tk =>
      cases net with
      | error msg => exact ⟨rfl, rfl, rfl, rfl⟩
      | ok pr =>
        obtain ⟨stc, data⟩ := pr
        dsimp only
        cases hx : extract_content data with
        | error e => exact ⟨rfl, rfl, rfl, rfl⟩
        | ok co =>
          cases co with
          | none => exact ⟨rfl, rfl, rfl, rfl⟩
          | some j =>
            cases j <;> (dsimp only; split <;> exact ⟨rfl, rfl, rfl, rfl⟩)

theorem buildUserMessage_prompt (fs : String → Option (List Nat))
    (mg : String → Option String) {p : String} (hp : p ≠ "") :
    buildUserMessage fs mg (some p) [] none = .ok ⟨"user", .str p⟩ := by
  unfold buildUserMessage buildUserContent buildContentParts prepareImages
  dsimp only
  rw [if_neg hp]
  rfl

theorem chat_step_ok (sm : Bool) (fs : String → Option (List Nat))
    (mg : String → Option String) (s : Session) (tk p : String)
    (mArg : Option String) (stc : Nat) (data : Json) (t : String)
    (htk : s.token = some tk) (hp : p ≠ "")
    (hx : extract_content data = .ok (some (.str t)))
    (ht1 : t ≠ "") (ht2 : pyStrip t ≠ "") :
    chatGeneric sm fs mg s (some p) mArg [] none (.ok (stc, data)) =
      ⟨{ s with chat_history :=
           s.chat_history ++ [⟨"user", .str p⟩, ⟨"assistant", .str t⟩] },
       .ok t,
       some (s.chat_history ++ [⟨"user", .str p⟩], mArg.getD s.current_model,
             getDriverForModel s (mArg.getD s.current_model))⟩ := by
  unfold chatGeneric
  rw [buildUserMessage_prompt fs mg hp, htk]
  dsimp only
  rw [hx]
  dsimp only
  rw [if_pos ⟨ht1, ht2⟩]
  cases mArg <;> rfl

theorem chat_step_diag (sm : Bool) (fs : String → Option (List Nat))
    (mg : String → Option String) (s : Session) (tk : String)
    (prompt : Option String) (mArg : Option String) (images : List ImgInput)
    (cps : Option (List Json)) (stc : Nat) (data : Json) (um : Message)
    (htk : s.token = some tk)
    (hb : buildUserMessage fs mg prompt images cps = .ok um)
    (hmiss : extract_content data = .ok none ∨
      ∃ c, extract_content data = .ok (some (.str c)) ∧ (c = "" ∨ pyStrip c = "")) :
    (chatGeneric sm fs mg s prompt mArg images cps (.ok (stc, data))).session = s ∧
    (chatGeneric sm fs mg s prompt mArg images cps (.ok (stc, data))).result =
      .ok (diagnosticString (if sm then some stc else none) data) := by
  unfold chatGeneric
  rcases hmiss with hx | ⟨c, hx, hc⟩
  · rw [hb, htk]
    dsimp only
    rw [hx]
    exact ⟨rfl, rfl⟩
  · have hcond : ¬(c ≠ "" ∧ pyStrip c ≠ "") := by tauto
    rw [hb, htk]
    dsimp only
    rw [hx]
    dsimp only
    rw [if_neg hcond]
    exact ⟨rfl, rfl⟩

theorem retryAux_allFail {α : Type} (f : Nat → Except String α) (d b : ℚ)
    (total : Nat) (err : Nat → String) (hf : ∀ i, f i = .error (err i)) :
    ∀ (remaining attempt : Nat),
      retryAux f d b total attempt remaining =
        ⟨.error ("Request failed after " ++
           (toString total ++ (" attempts: " ++ err (attempt + remaining)))),
         remaining + 1,
         (List.range remaining).map fun i => d * b ^ (attempt + i)⟩
  | 0, attempt => by
    rw [retryAux, hf attempt]
    simp
  | r + 1, attempt => by
    have hrec := retryAux_allFail f d b total err hf r (attempt + 1)
    rw [retryAux, hf attempt]
    dsimp only
    rw [hrec]
    have he : attempt + 1 + r = attempt + (r + 1) := by omega
    have hsl : (List.range (r + 1)).map (fun i => d * b ^ (attempt + i)) =
        d * b ^ attempt :: ((List.range r).map fun i => d * b ^ (attempt + 1 + i)) := by
      rw [List.range_succ_eq_map, List.map_cons, List.map_map]
      have h0 : d * b ^ (attempt + 0) = d * b ^ attempt := by rw [Nat.add_zero]
      have hfun : ((fun i => d * b ^ (attempt + i)) ∘ Nat.succ) =
          fun i => d * b ^ (attempt + 1 + i) := by
        funext i
        show d * b ^ (attempt + (i + 1)) = d * b ^ (attempt + 1 + i)
        have hi : attempt + (i + 1) = attempt + 1 + i := by omega
        rw [hi]
      rw [h0, hfun]
    rw [he, hsl]

theorem goodCall_spec {c : ChatCall} (h : goodCall c = true) :
    c.prompt ≠ "" ∧
    extract_content c.response = .ok (some (.str (extractedText c.response))) ∧
    extractedText c.response ≠ "" ∧ pyStrip (extractedText c.response) ≠ "" := by
  unfold goodCall at h
  unfold extractedText
  cases hx : extract_content c.response with
  | error e => rw [hx] at h; simp at h
  | ok o =>
    cases o with
    | none => rw [hx] at h; simp at h
    | some j =>
      cases j <;> rw [hx] at h <;> simp_all

theorem runCall_session_ok (fs : String → Option (List Nat))
    (mg : String → Option String) (s : Session) (tk : String) (c : ChatCall)
    (htk : s.token = some tk) (hgc : goodCall c = true) :
    (runCall fs mg s c).session =
      { s with chat_history := s.chat_history ++
          [⟨"user", .str c.prompt⟩, ⟨"assistant", .str (extractedText c.response)⟩] } := by
  obtain ⟨hp, hx, ht1, ht2⟩ := goodCall_spec hgc
  unfold runCall chat async_chat
  cases hA : c.isAsync <;>
    simp only [Bool.false_eq_true, if_false, if_true] <;>
    rw [chat_step_ok _ fs mg s tk c.prompt c.modelArg c.status c.response
      (extractedText c.response) htk hp hx ht1 ht2]

theorem runCalls_good (fs : String → Option (List Nat))
    (mg : String → Option String) (tk : String) :
    ∀ (calls : List ChatCall) (s : Session), s.token = some tk →
      (∀ c ∈ calls, goodCall c = true) →
      runCalls fs mg s calls = { s with chat_history := s.chat_history ++ pairBlocks calls }
  | [], s, _, _ => by
    rw [runCalls, pairBlocks, List.append_nil]
  | c :: cs, s, htk, hg => by
    have hstep := runCall_session_ok fs mg s tk c htk (hg c (List.mem_cons_self c cs))
    have htk2 : (runCall fs mg s c).session.token = some tk := by rw [hstep]; exact htk
    rw [runCalls, runCalls_good fs mg tk cs (runCall fs mg s c).session htk2
        (fun d hd => hg d (List.mem_cons_of_mem c hd)), hstep]
    rw [pairBlocks]
    simp [List.append_assoc]

theorem pairBlocks_length : ∀ calls : List ChatCall,
    (pairBlocks calls).length = 2 * calls.length
  | [] => rfl
  | c :: cs => by
    rw [pairBlocks]
    simp only [List.length_cons, pairBlocks_length cs]
    omega

theorem pairBlocks_role : ∀ (calls : List ChatCall) (i : Nat)
    (h : i < (pairBlocks calls).length),
    ((pairBlocks calls).get ⟨i, h⟩).role = if i % 2 = 0 then "user" else "assistant"
  | [], i, h => by rw [pairBlocks] at h; cases h
  | c :: cs, 0, _ => rfl
  | c :: cs, 1, _ => rfl
  | c :: cs, n + 2, h => by
    have h' : n < (pairBlocks cs).length := by
      rw [pairBlocks] at h
      simp only [List.length_cons] at h
      omega
    have hmod : (n + 2) % 2 = n % 2 := by omega
    have := pairBlocks_role cs n h'
    show ((pairBlocks cs).get ⟨n, h'⟩).role = if (n + 2) % 2 = 0 then "user" else "assistant"
    rw [hmod]
    exact this

theorem firstStructMatch_cons_error (e : PyErr) (ps : List (Except PyErr (Option Json))) :
    firstStructMatch (.error e :: ps) = .error e := rfl

theorem firstStructMatch_cons_some (v : Json) (ps : List (Except PyErr (Option Json))) :
    firstStructMatch (.ok (some v) :: ps) = .ok (some v) := rfl

theorem firstStructMatch_cons_none (ps : List (Except PyErr (Option Json))) :
    firstStructMatch (.ok none :: ps) = firstStructMatch ps := rfl

theorem tryTopLevel_structural (data : Json) :
    tryTopLevel data = firstStructMatch
      [ match data.get "content" with
        | some (.str s) => .ok (some (.str s))
        | _ => .ok none
      , .ok (data.get "text") ] := by
  unfold tryTopLevel
  cases hc : data.get "content" with
  | none =>
    cases ht : data.get "text" with
    | none => rfl
    | some v => rfl
  | some v =>
    cases v <;> (cases ht : data.get "text" with | none => rfl | some w => rfl)

/-! ## Claim theorems -/

/-- C2: with `maxRetries = R`, a request function failing on every attempt is
invoked exactly `R + 1` times, the sleep before the retry following
zero-indexed attempt `i` is exactly `retryDelay * backoffFactor ^ i`, and the
final `PuterAPIError` message reports the total attempt count `R + 1` and the
last underlying error. -/
theorem retry_exhaustion_spec {α : Type} (R : Nat) (d b : ℚ) (err : Nat → String)
    (f : Nat → Except String α) (hf : ∀ i, f i = .error (err i)) :
    retry_request f R d b =
      ⟨.error ("Request failed after " ++ (toString (R + 1) ++ (" attempts: " ++ err R))),
       R + 1, (List.range R).map fun i => d * b ^ i⟩ := by
  unfold retry_request
  rw [retryAux_allFail f d b (R + 1) err hf R 0]
  simp [Nat.zero_add]

theorem retry_exhaustion_spec_witness :
    retry_request (fun _ => (.error "boom" : Except String Unit)) 2 1 2 =
      ⟨.error "Request failed after 3 attempts: boom", 3, [1, 2]⟩ := by
  rw [retry_exhaustion_spec 2 1 2 (fun _ => "boom") (fun _ => .error "boom") (fun _ => rfl)]
  rw [(by simp [List.range_succ] : (List.range 2).map (fun i => (1 : ℚ) * 2 ^ i) = [1, 2])]
  rfl

/-- C5 counterexample: constructing a session with the override
`max_retries = 7` leaves `max_retries` of the global configuration at `7`,
not at its prior value `3` — the global object is mutated, refuting the
claim that every field holds the same value after construction. -/
theorem session_overrides_mutate_global_ce :
    (initGlobalConfig cfgDefaults ovRetries7).max_retries = 7 ∧
    cfgDefaults.max_retries = 3 ∧
    initGlobalConfig cfgDefaults ovRetries7 ≠ cfgDefaults := by
  refine ⟨rfl, rfl, ?_⟩
  decide

/-- C5 amended: constructor overrides are applied to the process-wide global
configuration through `config.update`: each overridden field of the global
object takes the override value and every non-overridden field keeps its
prior value; the session holds no private shadow copy. -/
theorem session_overrides_update_global (c : PuterConfig) (o : ConfigOverrides) :
    initGlobalConfig c o = c.update o ∧
    (c.update o).api_base = o.api_base.getD c.api_base ∧
    (c.update o).login_url = o.login_url.getD c.login_url ∧
    (c.update o).timeout = o.timeout.getD c.timeout ∧
    (c.update o).max_retries = o.max_retries.getD c.max_retries ∧
    (c.update o).retry_delay = o.retry_delay.getD c.retry_delay ∧
    (c.update o).backoff_factor = o.backoff_factor.getD c.backoff_factor ∧
    (c.update o).rate_limit_requests = o.rate_limit_requests.getD c.rate_limit_requests ∧
    (c.update o).rate_limit_period = o.rate_limit_period.getD c.rate_limit_period := by
  constructor
  · unfold initGlobalConfig
    split
    · rename_i h
      unfold ConfigOverrides.isEmpty at h
      simp only [Bool.and_eq_true, Option.isNone_iff_eq_none] at h
      obtain ⟨⟨⟨⟨⟨⟨⟨h1, h2⟩, h3⟩, h4⟩, h5⟩, h6⟩, h7⟩, h8⟩ := h
      unfold PuterConfig.update
      rw [h1, h2, h3, h4, h5, h6, h7, h8]
      rfl
    · rfl
  · exact ⟨rfl, rfl, rfl, rfl, rfl, rfl, rfl, rfl⟩

/-- C7 counterexample: the empty byte buffer is accepted, not rejected — it
resolves to an `image_url` payload whose data URI has empty base64 content. -/
theorem empty_bytes_accepted_ce :
    prepareImageContent fsEmpty mgNone (.plain (.bytesC [])) "image/png" =
      .ok (imageUrlPayload "data:image/png;base64,") := rfl

/-- C7 amended: `_create_base64_image_url` fails with `ValueError` exactly
when the resolved payload is missing (`None`) or not bytes-like; any byte
buffer — including the empty one — is accepted and base64-encoded into a
data URI. -/
theorem create_base64_error_conditions (m dm : String) (b : List Nat) :
    createBase64ImageUrl .noneD m dm =
      .error (.valueError "Image data could not be read.") ∧
    createBase64ImageUrl .otherD m dm =
      .error (.valueError "Image data must be bytes-like.") ∧
    createBase64ImageUrl (.bytesD b) m dm =
      .ok (imageUrlPayload ("data:" ++ pyOr (some m) dm ++ ";base64," ++ b64Encode b)) :=
  ⟨rfl, rfl, rfl⟩

/-- C9: `set_model` returns `true` and sets `current_model` exactly when the
name is a key of the model registry; otherwise it returns `false` without
raising and leaves the whole session (in particular `current_model`)
unchanged. -/
theorem set_model_registry_spec (s : Session) (modelName : String) :
    (set_model s modelName).2 = (lookupKey s.available_models modelName).isSome ∧
    (set_model s modelName).1.current_model =
      (if (lookupKey s.available_models modelName).isSome then modelName
       else s.current_model) ∧
    (set_model s modelName).1.token = s.token ∧
    (set_model s modelName).1.chat_history = s.chat_history ∧
    (set_model s modelName).1.available_models = s.available_models := by
  unfold set_model
  split <;> simp_all

/-- C10: a chat or async chat call never changes the token or the
current model of the session — whatever model argument, inputs, or transport
outcome — and the only session field it can mutate is the transcript. -/
theorem chat_session_frame (fs : String → Option (List Nat))
    (mg : String → Option String) (s : Session) (p m : Option String)
    (i : List ImgInput) (cp : Option (List Json))
    (net : Except String (Nat × Json)) :
    ((chat fs mg s p m i cp net).session.token = s.token ∧
     (chat fs mg s p m i cp net).session.current_model = s.current_model ∧
     (chat fs mg s p m i cp net).session =
       { s with chat_history := (chat fs mg s p m i cp net).session.chat_history }) ∧
    ((async_chat fs mg s p m i cp net).session.token = s.token ∧
     (async_chat fs mg s p m i cp net).session.current_model = s.current_model ∧
     (async_chat fs mg s p m i cp net).session =
       { s with chat_history := (async_chat fs mg s p m i cp net).session.chat_history }) := by
  have h1 := chatGeneric_frame true fs mg s p m i cp net
  have h2 := chatGeneric_frame false fs mg s p m i cp net
  exact ⟨⟨h1.1, h1.2.1, h1.2.2.2⟩, ⟨h2.1, h2.2.1, h2.2.2.2⟩⟩

/-- C1: starting from an empty transcript, a sequence of chat or async chat
calls, each of which receives a non-empty (after stripping) response text,
leaves a transcript that is exactly the user/assistant pair of each call in
order — `2N` entries, alternating roles user/assistant starting with user,
each call appending exactly its user message then the assistant reply and
nothing else. -/
theorem chat_transcript_pairs (fs : String → Option (List Nat))
    (mg : String → Option String) (s : Session) (tk : String)
    (calls : List ChatCall)
    (htk : s.token = some tk) (hh : s.chat_history = [])
    (hg : ∀ c ∈ calls, goodCall c = true) :
    (runCalls fs mg s calls).chat_history = pairBlocks calls ∧
    (runCalls fs mg s calls).chat_history.length = 2 * calls.length ∧
    ∀ i : Nat, ∀ h : i < (runCalls fs mg s calls).chat_history.length,
      ((runCalls fs mg s calls).chat_history.get ⟨i, h⟩).role =
        if i % 2 = 0 then "user" else "assistant" := by
  have h1 := runCalls_good fs mg tk calls s htk hg
  have h2 : (runCalls fs mg s calls).chat_history = pairBlocks calls := by
    rw [h1]
    show s.chat_history ++ pairBlocks calls = pairBlocks calls
    rw [hh, List.nil_append]
  refine ⟨h2, ?_, ?_⟩
  · rw [h2, pairBlocks_length]
  · intro i h
    have h' : i < (pairBlocks calls).length := h2 ▸ h
    have haux : ∀ (l : List Message), (runCalls fs mg s calls).chat_history = l →
        ∀ hi : i < l.length,
        (runCalls fs mg s calls).chat_history.get ⟨i, h⟩ = l.get ⟨i, hi⟩ := by
      intro l hEq hi
      subst hEq
      rfl
    rw [haux (pairBlocks calls) h2 h']
    exact pairBlocks_role calls i h'

theorem chat_transcript_pairs_witness :
    (runCalls fsEmpty mgNone sessAuth
        [⟨false, "hi", none, 200, bodyHello⟩,
         ⟨true, "more", some "gpt-4", 200, bodyChoice⟩]).chat_history =
      [⟨"user", .str "hi"⟩, ⟨"assistant", .str "hello"⟩,
       ⟨"user", .str "more"⟩, ⟨"assistant", .str "sure"⟩] ∧
    (runCalls fsEmpty mgNone sessAuth
        [⟨false, "hi", none, 200, bodyHello⟩,
         ⟨true, "more", some "gpt-4", 200, bodyChoice⟩]).chat_history.length = 2 * 2 := by
  have h := chat_transcript_pairs fsEmpty mgNone sessAuth "tk"
    [⟨false, "hi", none, 200, bodyHello⟩, ⟨true, "more", some "gpt-4", 200, bodyChoice⟩]
    rfl rfl (by decide)
  exact ⟨h.1.trans (by rfl), h.2.1⟩

/-- C3 counterexample: on a body whose `result.message.content` is the empty
string while the top-level `text` field holds `"hi"`, the code extracts `""`
(the first structural match), not the first non-empty text `"hi"` that the
claimed trying-order would produce. -/
theorem extract_first_nonempty_ce :
    extract_content ceBody = .ok (some (.str "")) ∧
    extractFirstNonEmpty ceBody = some "hi" ∧
    ("" : String) ≠ "hi" :=
  ⟨rfl, rfl, by decide⟩

/-- C3 amended: the extracted text equals the result of trying the seven
patterns in the fixed order and returning the first pattern that structurally
matches — even when the matched text is empty, in which case it still shadows
every later pattern. -/
theorem extract_ordered_structural_match (data : Json) :
    extract_content data = firstStructMatch (codePatterns data) := by
  unfold extract_content codePatterns
  cases hr : data.get "result" with
  | none => exact tryTopLevel_structural data
  | some r =>
    dsimp only
    cases hm : tryMessageContent r with
    | error e => rfl
    | ok mo =>
      cases mo with
      | some v => rfl
      | none =>
        rw [firstStructMatch_cons_none]
        cases hcf : tryContentField r with
        | error e => rfl
        | ok co =>
          cases co with
          | some v => rfl
          | none =>
            rw [firstStructMatch_cons_none]
            cases r with
            | str s2 => rfl
            | null => exact tryTopLevel_structural data
            | bool b2 => exact tryTopLevel_structural data
            | num n2 => exact tryTopLevel_structural data
            | arr xs => exact tryTopLevel_structural data
            | obj fields =>
              dsimp only
              rw [firstStructMatch_cons_none]
              cases hch : tryChoices (.obj fields) with
              | some v => rfl
              | none =>
                rw [firstStructMatch_cons_none]
                cases htx : (Json.obj fields).get "text" with
                | some v => rfl
                | none =>
                  rw [firstStructMatch_cons_none]
                  exact tryTopLevel_structural data

/-- C4: when no extraction pattern matches the response dict, or the
extracted text is empty or whitespace-only, `chat` and `async_chat` return
(never raise) the diagnostic string and leave the transcript unchanged; the
diagnostic contains the JSON rendering of every top-level key name of the
response and of the preview of the raw body, and the preview is truncated to
at most 203 characters. -/
theorem chat_extraction_miss_diagnostic (fs : String → Option (List Nat))
    (mg : String → Option String) (s : Session) (tk : String)
    (prompt mArg : Option String) (images : List ImgInput)
    (cps : Option (List Json)) (stc : Nat) (fields : List (String × Json))
    (um : Message)
    (htk : s.token = some tk)
    (hb : buildUserMessage fs mg prompt images cps = .ok um)
    (hmiss : extract_content (.obj fields) = .ok none ∨
      ∃ c, extract_content (.obj fields) = .ok (some (.str c)) ∧
        (c = "" ∨ pyStrip c = "")) :
    (chat fs mg s prompt mArg images cps (.ok (stc, .obj fields))).session = s ∧
    (chat fs mg s prompt mArg images cps (.ok (stc, .obj fields))).result =
      .ok (diagnosticString (some stc) (.obj fields)) ∧
    (async_chat fs mg s prompt mArg images cps (.ok (stc, .obj fields))).session = s ∧
    (async_chat fs mg s prompt mArg images cps (.ok (stc, .obj fields))).result =
      .ok (diagnosticString none (.obj fields)) ∧
    (∀ k ∈ fields.map Prod.fst,
       strContains (diagnosticString (some stc) (.obj fields)) (jsonQuote k) ∧
       strContains (diagnosticString none (.obj fields)) (jsonQuote k)) ∧
    strContains (diagnosticString (some stc) (.obj fields))
      (jsonQuote (previewOf (.obj fields))) ∧
    strContains (diagnosticString none (.obj fields))
      (jsonQuote (previewOf (.obj fields))) ∧
    (previewOf (.obj fields)).length ≤ 203 := by
  have hsync := chat_step_diag true fs mg s tk prompt mArg images cps stc
    (.obj fields) um htk hb hmiss
  have hasync := chat_step_diag false fs mg s tk prompt mArg images cps stc
    (.obj fields) um htk hb hmiss
  refine ⟨hsync.1, hsync.2, hasync.1, hasync.2, ?_,
    diagnosticString_contains_preview _ _, diagnosticString_contains_preview _ _,
    previewOf_length_le _⟩
  intro k hk
  exact ⟨diagnosticString_contains_key _ fields hk, diagnosticString_contains_key _ fields hk⟩

theorem chat_extraction_miss_diagnostic_witness :
    (chat fsEmpty mgNone sessAuth (some "hi") none [] none
        (.ok (200, bodyMiss))).session = sessAuth ∧
    (chat fsEmpty mgNone sessAuth (some "hi") none [] none
        (.ok (200, bodyMiss))).result = .ok (diagnosticString (some 200) bodyMiss) := by
  have h := chat_extraction_miss_diagnostic fsEmpty mgNone sessAuth "tk"
    (some "hi") none [] none 200 [("success", .bool true), ("meta", .null)]
    ⟨"user", .str "hi"⟩ rfl rfl (Or.inl rfl)
  exact ⟨h.1, h.2.1⟩

/-- C6: image normalization passes `data:` URIs and http(s) URLs through as
the payload URL unchanged, and turns a raw byte buffer with an explicit MIME
type `m` into the URL `data:` + `m` + `;base64,` + base64 of the bytes. -/
theorem image_passthrough_and_base64 :
    (∀ (fs : String → Option (List Nat)) (mg : String → Option String)
       (src : String) (em : Option String) (dm : String),
       src.startsWith "data:" = true ∨ urlScheme src = "http" ∨ urlScheme src = "https" →
       handlePathLikeImage fs mg src em dm = .ok (imageUrlPayload src)) ∧
    (∀ (fs : String → Option (List Nat)) (mg : String → Option String)
       (b : List Nat) (m : String), m ≠ "" →
       prepareImageContent fs mg (.pair (.bytesC b) (some m)) "image/png" =
         .ok (imageUrlPayload ("data:" ++ m ++ ";base64," ++ b64Encode b))) := by
  constructor
  · intro fs mg src em dm h
    unfold handlePathLikeImage
    by_cases hd : src.startsWith "data:" = true
    · rw [if_pos hd]
    · rw [if_neg hd]
      rcases h with h | h | h
      · exact absurd h hd
      · simp [h]
      · simp [h]
  · intro fs mg b m hm
    have heq : pyOr (some m) "image/png" = m := by
      show (if m = "" then "image/png" else m) = m
      rw [if_neg hm]
    unfold prepareImageContent extractImageSource extractImageData createBase64ImageUrl
    dsimp only
    rw [heq, heq]

theorem image_passthrough_and_base64_witness :
    handlePathLikeImage fsEmpty mgNone "https://example.com/cat.png" none "image/png" =
      .ok (imageUrlPayload "https://example.com/cat.png") ∧
    prepareImageContent fsEmpty mgNone (.pair (.bytesC [97, 98, 99]) (some "image/jpeg"))
      "image/png" = .ok (imageUrlPayload "data:image/jpeg;base64,YWJj") := by
  constructor
  · exact image_passthrough_and_base64.1 fsEmpty mgNone "https://example.com/cat.png" none
      "image/png" (Or.inr (Or.inr rfl))
  · exact (image_passthrough_and_base64.2 fsEmpty mgNone [97, 98, 99] "image/jpeg"
      (by decide)).trans (by rfl)

/-- C8: on a session holding no token, a chat or async chat call with valid
message inputs fails with the `PuterAuthError` "Not authenticated" message,
performs no dispatch (`request = none`), and leaves the session unchanged —
whatever the transport would have answered. -/
theorem chat_unauthenticated_local (fs : String → Option (List Nat))
    (mg : String → Option String) (s : Session) (prompt mArg : Option String)
    (images : List ImgInput) (cps : Option (List Json))
    (net : Except String (Nat × Json)) (um : Message)
    (htk : s.token = none)
    (hb : buildUserMessage fs mg prompt images cps = .ok um) :
    chat fs mg s prompt mArg images cps net =
      ⟨s, .error (.authError "Not authenticated. Please login first."), none⟩ ∧
    async_chat fs mg s prompt mArg images cps net =
      ⟨s, .error (.authError "Not authenticated. Please login first."), none⟩ := by
  constructor
  · unfold chat chatGeneric
    rw [hb, htk]
  · unfold async_chat chatGeneric
    rw [hb, htk]

theorem chat_unauthenticated_local_witness :
    chat fsEmpty mgNone sessAnon (some "hi") none [] none (.ok (200, bodyHello)) =
      ⟨sessAnon, .error (.authError "Not authenticated. Please login first."), none⟩ :=
  (chat_unauthenticated_local fsEmpty mgNone sessAnon (some "hi") none [] none
    (.ok (200, bodyHello)) ⟨"user", .str "hi"⟩ rfl rfl).1

end Puter
